import Mathlib

/-!
Shallow embedding of the medium-publishing-standards utility scripts
(tools/archive_article.py, tools/medium_tracker.py, tools/update_index.py)
together with proofs about the behaviours their specification describes.

Modelling conventions: Python strings are Lean `String` compared by code
point; JSON values are the inductive `JVal` with integers for JSON numbers
(no floats appear in the claims); fallible code returns `Except`; the
archiver's filesystem writes are recorded as an explicit effect list.
-/

universe u

variable {α : Type u}

/-- Code-point comparison of character lists, modelling Python string `<`. -/
def charsLtB : List Char → List Char → Bool
  | [], [] => false
  | [], _ :: _ => true
  | _ :: _, [] => false
  | a :: xs, b :: ys =>
      if a.val < b.val then true
      else if b.val < a.val then false
      else charsLtB xs ys

/-- Python string `<` (lexicographic by code point). -/
def strLtB (s t : String) : Bool := charsLtB s.data t.data

/-- Python str.lower(), restricted to ASCII letters (all data in the claims
is ASCII; the full Unicode case map is not modelled). -/
def pyLower (s : String) : String := String.mk (s.data.map Char.toLower)

/-- ASCII whitespace matched by the regex class backslash-s. -/
def isAsciiWs (c : Char) : Bool :=
  c == ' ' || c == '\t' || c == '\n' || c == '\r' || c == Char.ofNat 11 || c == Char.ofNat 12

/-- Lowercase ASCII letter or ASCII digit. -/
def isLowerAlphaNumCh (c : Char) : Bool :=
  (decide (97 ≤ c.toNat) && decide (c.toNat ≤ 122)) ||
  (decide (48 ≤ c.toNat) && decide (c.toNat ≤ 57))

/-- Characters kept by archive_article.py line 27, the substitution deleting
everything outside the class lowercase-letters, digits, whitespace, hyphen. -/
def isSlugKeep (c : Char) : Bool := isLowerAlphaNumCh c || isAsciiWs c || decide (c = '-')

/-- Replace each maximal run of whitespace with one underscore, as the
substitution at archive_article.py line 28 does; `prevWs` records whether the
previous character belonged to a run already replaced. -/
def collapseWsAux (prevWs : Bool) : List Char → List Char
  | [] => []
  | c :: cs =>
      if isAsciiWs c then
        if prevWs then collapseWsAux true cs
        else '_' :: collapseWsAux true cs
      else c :: collapseWsAux false cs

/-- archive_article.py lines 23-29: lowercase the title, delete characters
outside lowercase-letters/digits/whitespace/hyphen, replace whitespace runs
with underscores, truncate to 50 characters. -/
def slugify (title : String) : String :=
  String.mk (List.take 50 (collapseWsAux false ((title.data.map Char.toLower).filter isSlugKeep)))

/-- Last path segment, modelling pathlib's Path(p).name on forward-slash paths. -/
def fileName (p : String) : String := (p.splitOn "/").getLastD ""

/-- Longest prefix before the first slash: Python s.split(slash)[0]. -/
def strHeadUntilSlash (s : String) : String :=
  String.mk (s.data.takeWhile (fun c => !(c == '/')))

/-- ASCII digit test. -/
def isDigitCh (c : Char) : Bool := decide (48 ≤ c.toNat) && decide (c.toNat ≤ 57)

/-- Numeric value of an ASCII digit. -/
def digitVal (c : Char) : Nat := c.toNat - 48

/-- Digits after the first one in Python int(str) syntax: digits optionally
separated by single underscores placed between two digits. -/
def pyDigitsGo (acc : Nat) : List Char → Option Nat
  | [] => some acc
  | '_' :: d :: ds => if isDigitCh d then pyDigitsGo (acc * 10 + digitVal d) ds else none
  | '_' :: [] => none
  | c :: cs => if isDigitCh c then pyDigitsGo (acc * 10 + digitVal c) cs else none

/-- Digit-run parser for Python int(str): must start with a digit. -/
def pyDigitsStart : List Char → Option Nat
  | [] => none
  | c :: cs => if isDigitCh c then pyDigitsGo (digitVal c) cs else none

/-- Surrounding-whitespace strip on a character list, as int(str) applies
before parsing. -/
def pyStripWs (l : List Char) : List Char :=
  (((l.dropWhile isAsciiWs).reverse).dropWhile isAsciiWs).reverse

/-- Python int(str): strip surrounding whitespace, optional sign, then ASCII
digits with optional single underscore separators; anything else raises
ValueError, modelled as `none`. -/
def pyIntParse (s : String) : Option Int :=
  match pyStripWs s.data with
  | [] => none
  | c :: cs =>
      if c = '+' then (pyDigitsStart cs).map (fun n => (n : Int))
      else if c = '-' then (pyDigitsStart cs).map (fun n => -(n : Int))
      else (pyDigitsStart (c :: cs)).map (fun n => (n : Int))

/-- Round the fraction num/den (den positive) to the nearest integer, ties
to even, as CPython fixed-point formatting does on exactly representable
values. -/
def roundHalfEvenFrac (num den : Int) : Int :=
  let f := Int.fdiv num den
  let r := num - f * den
  if 2 * r < den then f
  else if den < 2 * r then f + 1
  else if f % 2 = 0 then f else f + 1

/-- CPython format spec ".1f" on the exact value num/den (the negative-zero
corner of binary floats is not modelled; no claim touches it). -/
def formatFrac1 (num den : Int) : String :=
  let m := roundHalfEvenFrac (num * 10) den
  if m < 0 then "-" ++ toString ((-m) / 10) ++ "." ++ toString ((-m) % 10)
  else toString (m / 10) ++ "." ++ toString (m % 10)

/-- JSON values as json.load produces them; JSON numbers are modelled as
integers (no float appears in any claim). -/
inductive JVal : Type
  | null : JVal
  | bool : Bool → JVal
  | num : Int → JVal
  | str : String → JVal
  | arr : List JVal → JVal
  | obj : List (String × JVal) → JVal

/-- Python truthiness of a JSON-derived value. -/
def jTruthy : JVal → Bool
  | .null => false
  | .bool b => b
  | .num n => decide (n ≠ 0)
  | .str s => decide (s ≠ "")
  | .arr xs => !xs.isEmpty
  | .obj fs => !fs.isEmpty

mutual

/-- Python repr of a JSON-derived value (string escaping inside repr is not
modelled; only the geo-score parse looks at these renderings, and every
bracketed rendering fails that parse). -/
def pyRepr : JVal → String
  | .null => "None"
  | .bool b => if b then "True" else "False"
  | .num n => toString n
  | .str s => "\x27" ++ s ++ "\x27"
  | .arr xs => "[" ++ String.intercalate ", " (pyReprList xs) ++ "]"
  | .obj fs => "\x7b" ++ String.intercalate ", " (pyReprPairs fs) ++ "\x7d"

/-- repr of each element of a Python list. -/
def pyReprList : List JVal → List String
  | [] => []
  | v :: vs => pyRepr v :: pyReprList vs

/-- repr of each key-value pair of a Python dict. -/
def pyReprPairs : List (String × JVal) → List String
  | [] => []
  | (k, v) :: fs => ("\x27" ++ k ++ "\x27: " ++ pyRepr v) :: pyReprPairs fs

end

/-- Python str() of a JSON-derived value. -/
def pyStr : JVal → String
  | .str s => s
  | v => pyRepr v

/-- Dictionary lookup with later duplicate keys winning, as in the dicts
json.load builds. -/
def objGet (fields : List (String × JVal)) (k : String) : Option JVal :=
  (fields.reverse.find? (fun p => p.1 == k)).map (fun p => p.2)

/-- An article as well-formed tracker data: the fields of the Article
dataclass (medium_tracker.py lines 38-49) at the string/int types the
archiver writes and the claims quantify over. -/
structure Article : Type where
  title : String
  project : String
  status : String
  medium_url : Option String := none
  github_pages_url : Option String := none
  published_date : Option String := none
  geo_score : Option Int := none
  source_path : Option String := none
  metadata_path : Option String := none
deriving DecidableEq

/-- An article exactly as scan_published_articles stores it: the raw JSON
values of the metadata record, before any type assumption. -/
structure RawArticle : Type where
  title : JVal
  project : JVal
  status : String
  medium_url : JVal
  github_pages_url : JVal
  published_date : JVal
  geo_score : Option Int
  source_path : JVal
  metadata_path : String

/-- medium_tracker.py lines 67-72: geo_score is parsed from a truthy value
via int(str(value).split(slash)[0]), with ValueError caught and discarded. -/
def parseGeo (v : JVal) : Option Int :=
  if jTruthy v then pyIntParse (strHeadUntilSlash (pyStr v)) else none

/-- medium_tracker.py lines 74-84: the Article built from one parsed
metadata.json object (dict.get defaults apply only when the key is absent). -/
def mkPublishedArticle (path : String) (o : List (String × JVal)) : RawArticle :=
  { title := (objGet o "title").getD (.str "Unknown")
  , project := (objGet o "project").getD (.str "Unknown")
  , status := "published"
  , medium_url := (objGet o "medium_url").getD .null
  , github_pages_url := (objGet o "github_pages_url").getD .null
  , published_date := (objGet o "published_date").getD .null
  , geo_score := parseGeo ((objGet o "geo_score").getD .null)
  , source_path := (objGet o "source_file").getD .null
  , metadata_path := path }

/-- medium_tracker.py lines 52-91 over the parsed contents of the matched
metadata files: a file whose JSON fails to decode is skipped (the except
clause catches JSONDecodeError), but a file whose JSON decodes to a
non-object hits data.get on a non-dict, raising AttributeError, which the
except clause does not catch: the whole scan aborts. -/
def scan_published_articles : List (String × Except String JVal) → Except String (List RawArticle)
  | [] => .ok []
  | (_, .error _) :: rest => scan_published_articles rest
  | (path, .ok (.obj o)) :: rest =>
      match scan_published_articles rest with
      | .ok arts => .ok (mkPublishedArticle path o :: arts)
      | .error e => .error e
  | (_, .ok _) :: _ => .error "AttributeError"

/-- medium_tracker.py line 174: the status component of the sort key. -/
def statusOrderOf (s : String) : Nat :=
  if s = "published" then 0 else if s = "pending" then 1 else 2

/-- medium_tracker.py line 175: `published_date or` the sentinel maximum
date string (a falsy empty date also yields the sentinel). -/
def dateOrSentinel (d : Option String) : String :=
  match d with
  | none => "9999-99-99"
  | some s => if s = "" then "9999-99-99" else s

/-- medium_tracker.py lines 173-176: the sort key of get_all_articles. -/
def sortKey (a : Article) : Nat × String :=
  (statusOrderOf a.status, dateOrSentinel a.published_date)

/-- Python tuple `<` on a (Nat, String) sort key. -/
def keyLtB : Nat × String → Nat × String → Bool
  | (n1, s1), (n2, s2) =>
      if n1 < n2 then true else if n2 < n1 then false else strLtB s1 s2

/-- Stable descending insertion: x goes before the first element whose key is
strictly smaller, hence after every earlier element with an equal key. -/
def pyInsertDesc (lt : α → α → Bool) (x : α) : List α → List α
  | [] => [x]
  | y :: ys => if lt y x then x :: y :: ys else y :: pyInsertDesc lt x ys

/-- Python list.sort(key, reverse=True): the stable sort placing keys in
descending order with ties kept in original order. -/
def pySortDescBy (lt : α → α → Bool) (l : List α) : List α :=
  l.foldl (fun acc x => pyInsertDesc lt x acc) []

/-- Strict key order between two articles. -/
def articleLt (a b : Article) : Bool := keyLtB (sortKey a) (sortKey b)

/-- medium_tracker.py lines 166-167: the status filter (an empty filter
string is falsy, so it filters nothing). -/
def statusFilterStep (sf : Option String) (l : List Article) : List Article :=
  match sf with
  | none => l
  | some s => if s = "" then l else l.filter (fun a => a.status == s)

/-- medium_tracker.py lines 169-170: the case-insensitive project filter. -/
def projectFilterStep (pf : Option String) (l : List Article) : List Article :=
  match pf with
  | none => l
  | some p => if p = "" then l else l.filter (fun a => pyLower a.project == pyLower p)

/-- medium_tracker.py lines 159-180: merge published before pending, apply
the status filter then the project filter, then sort with reverse=True on
the key (status order, date-or-sentinel). -/
def get_all_articles (published pending : List Article) (sf pf : Option String) : List Article :=
  pySortDescBy articleLt (projectFilterStep pf (statusFilterStep sf (published ++ pending)))

/-- medium_tracker.py line 222: the generator filters on the truthiness of
geo_score, so an absent score and a zero score are both excluded. -/
def truthyGeo (a : Article) : Bool :=
  match a.geo_score with
  | none => false
  | some n => decide (n ≠ 0)

/-- Sum of the geo scores that pass the truthiness filter. -/
def sumGeo (l : List Article) : Int :=
  (l.filter truthyGeo).foldl (fun s a => s + a.geo_score.getD 0) 0

/-- medium_tracker.py line 222: the average is sum over count of the truthy
scores when any exists, and the integer 0 otherwise. -/
def avg_geo (l : List Article) : ℚ :=
  if l.any truthyGeo then ((sumGeo l : ℚ)) / (((l.filter truthyGeo).length : ℕ) : ℚ)
  else 0

/-- medium_tracker.py line 224: the average as the summary renders it via
the format spec ".1f" — the exact value sum/count when some score is
truthy, the integer 0 otherwise. -/
def avgGeoDisplay (l : List Article) : String :=
  if l.any truthyGeo then formatFrac1 (sumGeo l) ((l.filter truthyGeo).length : Int)
  else formatFrac1 0 1

/-- medium_tracker.py line 224: the whole summary line. -/
def summaryLine (l : List Article) : String :=
  "\nSummary: " ++ toString l.length ++ " total | "
    ++ toString (l.countP (fun a => a.status == "published")) ++ " published | "
    ++ toString (l.countP (fun a => a.status == "pending")) ++ " pending | Avg GEO: "
    ++ avgGeoDisplay l

/-- The JSON document export_json builds (medium_tracker.py lines 229-235). -/
structure JsonExport : Type where
  generated : String
  total : Nat
  published : Nat
  pending : Nat
  articles : List Article

/-- medium_tracker.py lines 227-235: counts are sums of 1 over the articles
of each status, modelled with countP. -/
def export_json (articles : List Article) (generated : String) : JsonExport :=
  { generated := generated
  , total := articles.length
  , published := articles.countP (fun a => a.status == "published")
  , pending := articles.countP (fun a => a.status == "pending")
  , articles := articles }

/-- Command-line arguments of archive_article.py (lines 75-82). -/
structure ArchiveArgs : Type where
  source_path : String
  medium_url : String
  project : String
  title : String
  geo_score : Option String := none
  github_pages_url : Option String := none

/-- Outcome of the wkhtmltopdf subprocess call (archive_article.py 41-45):
it completed within the timeout with some return code, the binary was
missing (FileNotFoundError), or the timeout expired. -/
inductive PdfToolOutcome : Type
  | completed : Nat → PdfToolOutcome
  | toolMissing : PdfToolOutcome
  | timeout : PdfToolOutcome
deriving DecidableEq

/-- Filesystem writes the archiver performs, in order. -/
inductive FsEffect : Type
  | mkdirP : String → FsEffect
  | copyFile : String → String → FsEffect
  | removeTree : String → FsEffect
  | copyTree : String → String → FsEffect
  | writeFile : String → String → FsEffect
  | writeJson : String → JVal → FsEffect

/-- The parts of the world archive_article reads: existence of the input
paths, the current INDEX.md (none when absent), the PDF tool's behaviour,
and the clock. -/
structure ArchiveEnv : Type where
  sourceExists : Bool
  figuresExists : Bool
  vizExists : Bool
  figuresDestExists : Bool
  vizDestExists : Bool
  indexContent : Option String
  pdfOutcome : PdfToolOutcome
  today : String
  nowIso : String
  sourceParent : String
  sourceGrandParent : String

/-- archive_article.py lines 53-68: the placeholder text written when PDF
generation fails, with its manual-recovery instructions. -/
def pdfPlaceholder (url outputName nowIso : String) : String :=
  "PDF Snapshot Placeholder\n\nArticle URL: " ++ url ++ "\nGenerated: " ++ nowIso
    ++ "\n\nTo generate PDF manually:\n1. Open article URL in browser\n2. Print to PDF (Ctrl+P)\n3. Save as: "
    ++ outputName
    ++ "\n4. Replace this file\n\nOr install wkhtmltopdf:\n    choco install wkhtmltopdf (Windows)\n    brew install wkhtmltopdf (Mac)\n    apt-get install wkhtmltopdf (Linux)\n"

/-- archive_article.py lines 32-72: returns True with no write when the tool
exits 0; on a missing tool, a timeout, or a non-zero exit it writes the
placeholder to the output path and returns False, raising nothing. -/
def generate_pdf_from_url (outcome : PdfToolOutcome) (url output_path nowIso : String) :
    Bool × List FsEffect :=
  match outcome with
  | .completed rc =>
      if rc = 0 then (true, [])
      else (false, [FsEffect.writeFile output_path (pdfPlaceholder url (fileName output_path) nowIso)])
  | .toolMissing => (false, [FsEffect.writeFile output_path (pdfPlaceholder url (fileName output_path) nowIso)])
  | .timeout => (false, [FsEffect.writeFile output_path (pdfPlaceholder url (fileName output_path) nowIso)])

/-- The metadata dict archive_article builds (lines 129-140); every value is
a string there. -/
structure ArchiveMeta : Type where
  title : String
  project : String
  medium_url : String
  github_pages_url : String
  geo_score : String
  published_date : String
  archived_date : String
  source_file : String
  pdf_path : String
  source_dir : String

/-- The metadata dict as the JSON object json.dump writes (line 144). -/
def metadataJson (m : ArchiveMeta) : JVal :=
  .obj [("title", .str m.title), ("project", .str m.project),
        ("medium_url", .str m.medium_url), ("github_pages_url", .str m.github_pages_url),
        ("geo_score", .str m.geo_score), ("published_date", .str m.published_date),
        ("archived_date", .str m.archived_date), ("source_file", .str m.source_file),
        ("pdf_path", .str m.pdf_path), ("source_dir", .str m.source_dir)]

/-- archive_article.py lines 174-180: the fixed header written when no
INDEX.md exists yet. -/
def fixedIndexHeader : String :=
  "# Published Articles\n\nThis index is auto-generated by \x60tools/archive_article.py\x60 and \x60tools/update_index.py\x60.\n\n---\n\n"

/-- archive_article.py lines 183-192: the new INDEX.md entry for a record. -/
def archiverEntry (m : ArchiveMeta) (slug : String) : String :=
  let badge := if m.geo_score = "" then "" else " (GEO: " ++ m.geo_score ++ "/100)"
  let pdfName := fileName m.pdf_path
  let ghLine := if m.github_pages_url = "" then "" else "- **GitHub Pages**: " ++ m.github_pages_url
  "## " ++ m.published_date ++ ": " ++ m.title ++ badge
    ++ "\n\n- **Project**: " ++ m.project
    ++ "\n- **Medium**: [" ++ m.title ++ "](" ++ m.medium_url ++ ")"
    ++ "\n- **Source**: [source/" ++ slug ++ "/](source/" ++ slug ++ "/)"
    ++ "\n- **PDF Archive**: [pdfs/" ++ pdfName ++ "](pdfs/" ++ pdfName ++ ")"
    ++ "\n" ++ ghLine ++ "\n\n"

/-- archive_article.py lines 166-171: index of the first line starting a
section; stays 0 when no such line exists. -/
def headerEndIdx (lines : List String) : Nat :=
  (lines.findIdx? (fun ln => ln.startsWith "## ")).getD 0

/-- archive_article.py lines 157-201: the content written to INDEX.md by the
archiver's incremental update — entry inserted after the header block, or
appended to the fixed header when no index exists. -/
def updateIndexContent (existing : Option String) (entry : String) : String :=
  match existing with
  | some content =>
      let lines := content.splitOn "\n"
      let h := headerEndIdx lines
      String.intercalate "\n" (lines.take h) ++ "\n" ++ entry
        ++ String.intercalate "\n" (lines.drop h)
  | none => fixedIndexHeader ++ entry

/-- Result of one archive_article invocation: a fatal sys.exit with the
effects performed so far, or completion with all effects. -/
inductive ArchiveResult : Type
  | fatalExit : Nat → List FsEffect → ArchiveResult
  | success : List FsEffect → ArchiveResult

/-- archive_article.py lines 75-154: abort with exit code 1 before touching
the filesystem when the source file is missing; otherwise create the
directories, copy the source and the optional figures/visualizations trees,
run PDF generation, write the metadata record, and update INDEX.md. -/
def archive_article (env : ArchiveEnv) (args : ArchiveArgs) : ArchiveResult :=
  if env.sourceExists = false then .fatalExit 1 []
  else
    let slug := slugify args.title
    let pdf_path := "published/pdfs/" ++ env.today ++ "_" ++ slug ++ ".pdf"
    let source_dir := "published/source/" ++ slug
    let m : ArchiveMeta :=
      { title := args.title, project := args.project, medium_url := args.medium_url
      , github_pages_url := args.github_pages_url.getD ""
      , geo_score := args.geo_score.getD ""
      , published_date := env.today, archived_date := env.nowIso
      , source_file := args.source_path, pdf_path := pdf_path, source_dir := source_dir }
    let figEffs :=
      if env.figuresExists then
        (if env.figuresDestExists then [FsEffect.removeTree (source_dir ++ "/figures")] else [])
          ++ [FsEffect.copyTree (env.sourceParent ++ "/figures") (source_dir ++ "/figures")]
      else []
    let vizEffs :=
      if env.vizExists then
        (if env.vizDestExists then [FsEffect.removeTree (source_dir ++ "/visualizations")] else [])
          ++ [FsEffect.copyTree (env.sourceGrandParent ++ "/visualizations") (source_dir ++ "/visualizations")]
      else []
    let pdfStep := generate_pdf_from_url env.pdfOutcome args.medium_url pdf_path env.nowIso
    .success
      ([FsEffect.mkdirP source_dir, FsEffect.mkdirP "published/pdfs",
        FsEffect.copyFile args.source_path (source_dir ++ "/medium_draft.md")]
        ++ figEffs ++ vizEffs ++ pdfStep.2
        ++ [FsEffect.writeJson (source_dir ++ "/metadata.json") (metadataJson m),
            FsEffect.writeFile "published/INDEX.md"
              (updateIndexContent env.indexContent (archiverEntry m slug))])

/-- True exactly when the result is a non-zero exit with no effects. -/
def isFatalNoOutput : ArchiveResult → Bool
  | .fatalExit code effs => decide (code ≠ 0) && effs.isEmpty
  | .success _ => false

/-- The PDF-tool outcomes the spec calls failures: absent tool, timeout, or
non-zero exit. -/
def pdfFails : PdfToolOutcome → Bool
  | .completed rc => decide (rc ≠ 0)
  | .toolMissing => true
  | .timeout => true

/-- A well-formed metadata record as update_index.py consumes it: the ten
string fields archive_article writes. -/
structure PubMeta : Type where
  title : String
  project : String
  medium_url : String
  github_pages_url : String
  geo_score : String
  published_date : String
  archived_date : String
  source_file : String
  pdf_path : String
  source_dir : String
deriving DecidableEq

/-- update_index.py line 45: sort the records by published_date with
reverse=True. -/
def uiSortRecords (records : List PubMeta) : List PubMeta :=
  pySortDescBy (fun a b => strLtB a.published_date b.published_date) records

/-- update_index.py lines 61-74: the section generated for one record (never
reached by the script: the NameError at line 58 fires first). -/
def uiEntryFor (m : PubMeta) (slug : String) : String :=
  let badge := if m.geo_score = "" then "" else " (GEO: " ++ m.geo_score ++ "/100)"
  let pdfName := fileName m.pdf_path
  let ghLine := if m.github_pages_url = "" then "" else "- **GitHub Pages**: " ++ m.github_pages_url
  "## " ++ m.published_date ++ ": " ++ m.title ++ badge
    ++ "\n\n- **Project**: " ++ m.project
    ++ "\n- **Medium**: [" ++ m.title ++ "](" ++ m.medium_url ++ ")"
    ++ "\n- **Source**: [source/" ++ slug ++ "/](source/" ++ slug ++ "/)"
    ++ "\n- **PDF Archive**: [" ++ pdfName ++ "](" ++ m.pdf_path ++ ")"
    ++ "\n" ++ ghLine ++ "\n\n"

/-- Result of one update_index.py run. -/
inductive UiResult : Type
  | noSourceDir : UiResult
  | noRecords : UiResult
  | raisedNameError : UiResult
deriving DecidableEq

/-- update_index.py lines 22-80: return early when published/source/ is
missing or holds no records; otherwise sort the records (line 45) and then
hit line 58, which formats the header with len(articles) although the only
defined variable is articles_metadata, so Python raises NameError before any
file is written. -/
def update_index (sourceDirExists : Bool) (records : List PubMeta) : UiResult :=
  if sourceDirExists = false then .noSourceDir
  else if records.isEmpty then .noRecords
  else
    let _sorted := uiSortRecords records
    .raisedNameError

/-- Every character emitted by the whitespace-collapsing pass is either the
underscore it substitutes or a non-whitespace character of its input. -/
theorem collapseWsAux_mem (l : List Char) : ∀ (b : Bool) (c : Char),
    c ∈ collapseWsAux b l → c = '_' ∨ (c ∈ l ∧ isAsciiWs c = false) := by
  induction l with
  | nil =>
      intro b c hc
      simp [collapseWsAux] at hc
  | cons x xs ih =>
      intro b c hc
      by_cases hw : isAsciiWs x = true
      · cases b with
        | true =>
            simp only [collapseWsAux, hw, if_true] at hc
            rcases ih true c hc with h | ⟨h1, h2⟩
            · exact Or.inl h
            · exact Or.inr ⟨List.mem_cons_of_mem x h1, h2⟩
        | false =>
            simp only [collapseWsAux, hw, if_true] at hc
            rcases List.mem_cons.mp hc with h | h
            · exact Or.inl h
            · rcases ih true c h with h3 | ⟨h1, h2⟩
              · exact Or.inl h3
              · exact Or.inr ⟨List.mem_cons_of_mem x h1, h2⟩
      · have hw' : isAsciiWs x = false := by
          simpa using hw
        simp only [collapseWsAux, hw', Bool.false_eq_true, if_false] at hc
        rcases List.mem_cons.mp hc with h | h
        · subst h
          exact Or.inr ⟨List.mem_cons_self c xs, hw'⟩
        · rcases ih false c h with h3 | ⟨h1, h2⟩
          · exact Or.inl h3
          · exact Or.inr ⟨List.mem_cons_of_mem x h1, h2⟩

/-- Character set the amended slug claim allows: lowercase letters, digits,
underscore, hyphen. -/
def slugCharOk (c : Char) : Bool := isLowerAlphaNumCh c || decide (c = '_') || decide (c = '-')

/-- Character set the original claim allows: lowercase letters, digits,
underscore only. -/
def specSlugCharOk (c : Char) : Bool := isLowerAlphaNumCh c || decide (c = '_')

/-- C2 counterexample: the title "a-b" yields the slug "a-b", whose hyphen is
outside the character set the claim allows. -/
theorem c2_hyphen_counterexample :
    slugify "a-b" = "a-b" ∧ ((slugify "a-b").data.all specSlugCharOk) = false := by
  constructor
  · decide
  · decide

/-- C2 (amended): for every title, the slug is lowercase, drawn from the
character set lowercase letters, digits, underscore and hyphen, and has
length at most 50. -/
theorem c2_slug_charset (t : String) :
    ((slugify t).data.all slugCharOk) = true ∧ (slugify t).length ≤ 50 := by
  constructor
  · rw [List.all_eq_true]
    intro c hc
    have hc0 : c ∈ List.take 50 (collapseWsAux false ((t.data.map Char.toLower).filter isSlugKeep)) := by
      simpa [slugify] using hc
    have hc1 : c ∈ collapseWsAux false ((t.data.map Char.toLower).filter isSlugKeep) :=
      List.mem_of_mem_take hc0
    rcases collapseWsAux_mem _ false c hc1 with h | ⟨h1, h2⟩
    · simp [slugCharOk, h]
    · have hkeep : isSlugKeep c = true := (List.mem_filter.mp h1).2
      simp only [isSlugKeep, Bool.or_eq_true] at hkeep
      rcases hkeep with (hk | hk) | hk
      · simp [slugCharOk, hk]
      · rw [hk] at h2
        exact absurd h2 (by simp)
      · simp [slugCharOk, hk]
  · have : (slugify t).length = (List.take 50 (collapseWsAux false ((t.data.map Char.toLower).filter isSlugKeep))).length := rfl
    rw [this, List.length_take]
    exact Nat.min_le_left _ _

/-- C8: the JSON export's total equals the number of articles, and its
published and pending counts equal the lengths of the corresponding filtered
views of the article list. -/
theorem c8_export_counts (arts : List Article) (g : String) :
    (export_json arts g).total = arts.length
    ∧ (export_json arts g).published = (arts.filter (fun a => a.status == "published")).length
    ∧ (export_json arts g).pending = (arts.filter (fun a => a.status == "pending")).length := by
  refine ⟨rfl, ?_, ?_⟩
  · exact List.countP_eq_length_filter _ _
  · exact List.countP_eq_length_filter _ _

/-- C9: the status filter and the project filter of get_all_articles commute,
and each filter alone keeps the surviving articles in their original order
(its output is a sublist of its input). -/
theorem c9_filters_commute (sf pf : Option String) (l : List Article) :
    projectFilterStep pf (statusFilterStep sf l) = statusFilterStep sf (projectFilterStep pf l)
    ∧ List.Sublist (statusFilterStep sf l) l
    ∧ List.Sublist (projectFilterStep pf l) l := by
  refine ⟨?_, ?_, ?_⟩
  · cases sf with
    | none => rfl
    | some s =>
        cases pf with
        | none => rfl
        | some p =>
            by_cases hs : s = ""
            · simp [statusFilterStep, projectFilterStep, hs]
            · by_cases hp : p = ""
              · simp [statusFilterStep, projectFilterStep, hs, hp]
              · simp only [statusFilterStep, projectFilterStep, hs, hp, if_neg, if_false]
                exact List.filter_comm _ _ l
  · cases sf with
    | none => exact List.Sublist.refl l
    | some s =>
        simp only [statusFilterStep]
        by_cases hs : s = ""
        · rw [if_pos hs]
        · rw [if_neg hs]
          exact List.filter_sublist l
  · cases pf with
    | none => exact List.Sublist.refl l
    | some p =>
        simp only [projectFilterStep]
        by_cases hp : p = ""
        · rw [if_pos hp]
        · rw [if_neg hp]
          exact List.filter_sublist l

/-- The published record of the claim's concrete sorting example. -/
def c1Pub : Article :=
  { title := "A", project := "proj", status := "published", published_date := some "2024-01-01" }

/-- The pending, date-less record of the claim's concrete sorting example. -/
def c1Pen : Article :=
  { title := "B", project := "proj", status := "pending" }

/-- C1 evaluated at the claim's own example: the merged scan returns the
pending record first, because reverse=True inverts the status component of
the sort key (and makes the maximum-date sentinel sort first, not last),
contradicting the claim and the comment at medium_tracker.py line 172. -/
theorem c1_merged_scan_sorts_pending_first :
    get_all_articles [c1Pub] [c1Pen] none none = [c1Pen, c1Pub]
    ∧ (get_all_articles [c1Pub] [c1Pen] none none).head?.map Article.status = some "pending" := by
  constructor
  · decide
  · decide

/-- A well-formed metadata record for exercising update_index.py. -/
def c3Rec : PubMeta :=
  { title := "T", project := "P", medium_url := "https://medium.com/x"
  , github_pages_url := "", geo_score := "90", published_date := "2024-01-01"
  , archived_date := "2024-01-02T00:00:00", source_file := "a.md"
  , pdf_path := "published/pdfs/2024-01-01_t.pdf", source_dir := "published/source/t" }

/-- C3 evaluated on the code: whenever published/source/ exists and holds at
least one metadata record, update_index raises NameError (line 58 formats
the header with len(articles), an undefined name) instead of writing an
INDEX.md with one section per record. -/
theorem c3_update_index_raises (records : List PubMeta) (h : records ≠ []) :
    update_index true records = UiResult.raisedNameError := by
  cases records with
  | nil => exact absurd rfl h
  | cons r rs => rfl

/-- Witness for c3_update_index_raises at a single concrete record. -/
theorem c3_update_index_raises_witness :
    update_index true [c3Rec] = UiResult.raisedNameError :=
  c3_update_index_raises [c3Rec] (by simp)

/-- C4: whenever the source file does not exist, archive_article exits with
code 1 having performed no filesystem effect at all. -/
theorem c4_missing_source_aborts (env : ArchiveEnv) (args : ArchiveArgs)
    (h : env.sourceExists = false) :
    archive_article env args = ArchiveResult.fatalExit 1 []
    ∧ isFatalNoOutput (archive_article env args) = true := by
  have h1 : archive_article env args = ArchiveResult.fatalExit 1 [] := by
    simp [archive_article, h]
  exact ⟨h1, by rw [h1]; rfl⟩

/-- A concrete environment whose source file is absent. -/
def c4Env : ArchiveEnv :=
  { sourceExists := false, figuresExists := false, vizExists := false
  , figuresDestExists := false, vizDestExists := false, indexContent := none
  , pdfOutcome := .toolMissing, today := "2024-01-01"
  , nowIso := "2024-01-01T00:00:00", sourceParent := "proj/article", sourceGrandParent := "proj" }

/-- Concrete archiver arguments naming that absent source file. -/
def c4Args : ArchiveArgs :=
  { source_path := "proj/article/missing.md", medium_url := "https://medium.com/x"
  , project := "proj", title := "T" }

/-- Witness for c4_missing_source_aborts at a concrete invocation. -/
theorem c4_missing_source_aborts_witness :
    archive_article c4Env c4Args = ArchiveResult.fatalExit 1 []
    ∧ isFatalNoOutput (archive_article c4Env c4Args) = true :=
  c4_missing_source_aborts c4Env c4Args rfl

/-- When the source file exists, archive_article runs to completion. -/
theorem archive_article_success (env : ArchiveEnv) (args : ArchiveArgs)
    (h : env.sourceExists = true) :
    ∃ effs, archive_article env args = ArchiveResult.success effs := by
  unfold archive_article
  rw [h]
  simp only [Bool.true_eq_false, if_false]
  exact ⟨_, rfl⟩

/-- C6 evaluated on the code: a metadata file holding valid JSON that is not
an object (here the empty array) makes the whole published scan abort with
AttributeError instead of being skipped with a warning. -/
theorem c6_non_object_metadata_aborts :
    scan_published_articles [("published/source/x/metadata.json", Except.ok (JVal.arr []))]
      = Except.error "AttributeError" := rfl

/-- C7: whenever the PDF tool is absent, times out, or exits non-zero,
generate_pdf_from_url returns False (raising nothing) after writing exactly
the placeholder file with its manual-recovery instructions to the PDF output
path, and an archive run with an existing source under that same outcome
still completes successfully. -/
theorem c7_pdf_fallback (outcome : PdfToolOutcome) (url path nowIso : String)
    (env : ArchiveEnv) (args : ArchiveArgs)
    (hfail : pdfFails outcome = true) (hsrc : env.sourceExists = true) :
    generate_pdf_from_url outcome url path nowIso
      = (false, [FsEffect.writeFile path (pdfPlaceholder url (fileName path) nowIso)])
    ∧ ∃ effs, archive_article env args = ArchiveResult.success effs := by
  constructor
  · cases outcome with
    | completed rc =>
        have hrc : rc ≠ 0 := by simpa [pdfFails] using hfail
        simp [generate_pdf_from_url, hrc]
    | toolMissing => rfl
    | timeout => rfl
  · exact archive_article_success env args hsrc

/-- A concrete environment with an existing source and a missing PDF tool. -/
def c7Env : ArchiveEnv :=
  { sourceExists := true, figuresExists := false, vizExists := false
  , figuresDestExists := false, vizDestExists := false, indexContent := none
  , pdfOutcome := .toolMissing, today := "2024-01-01"
  , nowIso := "2024-01-01T00:00:00", sourceParent := "proj/article", sourceGrandParent := "proj" }

/-- Concrete archiver arguments for the PDF-fallback witness. -/
def c7Args : ArchiveArgs :=
  { source_path := "proj/article/draft.md", medium_url := "https://medium.com/y"
  , project := "proj", title := "U" }

/-- Witness for c7_pdf_fallback with the tool absent. -/
theorem c7_pdf_fallback_witness :
    generate_pdf_from_url PdfToolOutcome.toolMissing "https://medium.com/y" "published/pdfs/2024-01-01_u.pdf" "2024-01-01T00:00:00"
      = (false, [FsEffect.writeFile "published/pdfs/2024-01-01_u.pdf"
          (pdfPlaceholder "https://medium.com/y" (fileName "published/pdfs/2024-01-01_u.pdf") "2024-01-01T00:00:00")])
    ∧ ∃ effs, archive_article c7Env c7Args = ArchiveResult.success effs :=
  c7_pdf_fallback PdfToolOutcome.toolMissing "https://medium.com/y" "published/pdfs/2024-01-01_u.pdf" "2024-01-01T00:00:00" c7Env c7Args rfl rfl

/-- An article whose metadata record carries no geo_score. -/
def aNoGeo : Article := { title := "t", project := "p", status := "pending" }

/-- C5 counterexample: for a list whose only article has no present quality
score, the summary renders the average as "0.0" (the else-branch integer 0
formatted with ".1f"), not as the claimed em dash. -/
theorem c5_summary_counterexample :
    ([aNoGeo].all (fun a => a.geo_score.isNone)) = true
    ∧ avgGeoDisplay [aNoGeo] = "0.0"
    ∧ avgGeoDisplay [aNoGeo] ≠ "—" := by
  refine ⟨rfl, by decide, by decide⟩

/-- C5 (amended): an article without a geo_score is excluded from the
average — prepending it changes neither the average nor its rendering — and
when no article has a present nonzero score the summary renders the average
as "0.0" (the table cells, not the summary average, use the em dash). -/
theorem c5_average_policy (l : List Article) (a : Article) (h : a.geo_score = none) :
    avg_geo (a :: l) = avg_geo l
    ∧ avgGeoDisplay (a :: l) = avgGeoDisplay l
    ∧ (l.all (fun x => !truthyGeo x) = true → avgGeoDisplay l = "0.0") := by
  have hta : truthyGeo a = false := by simp [truthyGeo, h]
  refine ⟨?_, ?_, ?_⟩
  · simp [avg_geo, sumGeo, List.any_cons, List.filter_cons, hta]
  · simp [avgGeoDisplay, sumGeo, List.any_cons, List.filter_cons, hta]
  · intro h2
    have hany : l.any truthyGeo = false := by
      rw [List.any_eq_false]
      intro x hx
      simpa using List.all_eq_true.mp h2 x hx
    simp only [avgGeoDisplay, hany, Bool.false_eq_true, if_false]
    decide

/-- Witness for c5_average_policy: prepending the score-less article to the
empty list. -/
theorem c5_average_policy_witness :
    avg_geo [aNoGeo] = avg_geo []
    ∧ avgGeoDisplay [aNoGeo] = avgGeoDisplay []
    ∧ (([] : List Article).all (fun x => !truthyGeo x) = true
        → avgGeoDisplay ([] : List Article) = "0.0") :=
  c5_average_policy [] aNoGeo rfl

/-- C10: a published metadata record whose geo_score field holds any
non-empty string that int(...) cannot parse (after splitting at a slash) is
still returned by the scan as an article whose quality score is absent. -/
theorem c10_unparseable_geo_included (path : String) (o : List (String × JVal)) (s : String)
    (hget : objGet o "geo_score" = some (JVal.str s))
    (hne : s ≠ "")
    (hparse : pyIntParse (strHeadUntilSlash s) = none) :
    scan_published_articles [(path, Except.ok (JVal.obj o))]
      = Except.ok [mkPublishedArticle path o]
    ∧ (mkPublishedArticle path o).geo_score = none := by
  constructor
  · rfl
  · simp [mkPublishedArticle, parseGeo, hget, jTruthy, pyStr, hne, hparse]

/-- The metadata object of the C10 witness, with geo_score "high". -/
def c10Fields : List (String × JVal) :=
  [("title", JVal.str "T"), ("project", JVal.str "P"),
   ("published_date", JVal.str "2024-01-01"), ("geo_score", JVal.str "high")]

/-- Witness for c10_unparseable_geo_included at geo_score "high". -/
theorem c10_unparseable_geo_included_witness :
    (objGet c10Fields "geo_score" = some (JVal.str "high")
      ∧ "high" ≠ ""
      ∧ pyIntParse (strHeadUntilSlash "high") = none)
    ∧ scan_published_articles [("published/source/t/metadata.json", Except.ok (JVal.obj c10Fields))]
        = Except.ok [mkPublishedArticle "published/source/t/metadata.json" c10Fields]
    ∧ (mkPublishedArticle "published/source/t/metadata.json" c10Fields).geo_score = none :=
  ⟨⟨rfl, by decide, by decide⟩,
    c10_unparseable_geo_included "published/source/t/metadata.json" c10Fields "high"
      rfl (by decide) (by decide)⟩
